import Mathlib

/-
Verification of the ear-dataset adapter (samples/ears/ears.py): a shallow
embedding of the dataset indexer (load_ear, load_mask, image_reference) and
of the color-splash compositor (color_splash), with theorems settling the
behavioural claims about them.

Modelling conventions:
- filesystem access (os.walk top level, glob, skimage.io.imread) is an
  explicit record of functions FS supplied to each operation;
- numpy float arithmetic inside color_splash is embedded as exact rational
  arithmetic; astype(np.uint8) on a nonnegative float truncates toward zero,
  embedded as the floor (natural division), followed by reduction mod 256;
- a raised Python exception (failed assert, np.stack on an empty or ragged
  sequence, unreadable image) is embedded as an error value.
-/

namespace Ears

/-- Index of the last occurrence of a character in a character list, if any. -/
def lastIdxOf (c : Char) (cs : List Char) : Option Nat :=
  match cs.reverse.findIdx? (fun x => x == c) with
  | none => none
  | some j => some (cs.length - 1 - j)

/-- Model of os.path.join for the relative path components this script
builds: joins with a single separator. -/
def pathJoin (a b : String) : String := a ++ "/" ++ b

/-- Model of the first component of os.path.splitext: everything up to the
last dot, except that a dot inside the leading run of dots (a hidden-file
name such as .hidden) starts no extension. -/
def splitextStem (s : String) : String :=
  let cs := s.toList
  let lead := (cs.takeWhile (fun x => x == '.')).length
  match lastIdxOf '.' cs with
  | none => s
  | some i => if i < lead then s else String.mk (cs.take i)

/-- Model of os.path.dirname: everything before the last separator. -/
def dirname (s : String) : String :=
  match lastIdxOf '/' s.toList with
  | none => ""
  | some i => String.mk (s.toList.take i)

/-- List lookup with a default value, as Python sequence indexing seen
through a total function. -/
def nthD {α : Type} (d : α) : List α → Nat → α
  | [], _ => d
  | a :: _, 0 => a
  | _ :: as, n + 1 => nthD d as n

/-- Pixel with three integer channels, one cell of an RGB image array. -/
structure Pix where
  r : Nat
  g : Nat
  b : Nat
deriving DecidableEq

/-- Luminance of a pixel as an exact rational: skimage rgb2gray converts
the image to floats in [0,1] and applies the ITU-R 709 weights 0.2125,
0.7154, 0.0721; color_splash then multiplies by 255. The composition is
this weighted sum of the raw channels divided by 10000. -/
def lumQ (p : Pix) : ℚ :=
  ((2125 * p.r + 7154 * p.g + 721 * p.b : Nat) : ℚ) / ((10000 : Nat) : ℚ)

/-- Integer gray level after astype(np.uint8): truncation toward zero of
the scaled luminance, which on these nonnegative values is the floor, and
on naturals is exact division by 10000. -/
def grayLevel (p : Pix) : Nat :=
  (2125 * p.r + 7154 * p.g + 721 * p.b) / 10000

/-- Gray pixel written where the mask is clear: the gray level replicated
over the three channels, reduced mod 256 by the uint8 cast. -/
def grayPix (p : Pix) : Pix :=
  ⟨grayLevel p % 256, grayLevel p % 256, grayLevel p % 256⟩

/-- Original pixel passed through astype(np.uint8): each channel mod 256. -/
def castPix (p : Pix) : Pix :=
  ⟨p.r % 256, p.g % 256, p.b % 256⟩

/-- Mask value of one instance mask at row i, column j; out-of-range reads
are false (the embedding never relies on them for in-range pixels). -/
def maskAt (m : List (List Bool)) (i j : Nat) : Bool :=
  nthD false (nthD [] m i) j

/-- Pixelwise sum over the instance axis, np.sum(mask, -1) at cell (i, j):
each instance contributes 1 where its mask is set. -/
def maskSum (mask : List (List (List Bool))) (i j : Nat) : Nat :=
  (mask.map (fun m => if maskAt m i j then 1 else 0)).sum

/-- One row of np.where(mask, image, gray).astype(np.uint8): j is the
column index of the first pixel of the row suffix. -/
def splashRow (mask : List (List (List Bool))) (i : Nat) : Nat → List Pix → List Pix
  | _, [] => []
  | j, p :: ps =>
    (if 1 ≤ maskSum mask i j then castPix p else grayPix p) :: splashRow mask i (j + 1) ps

/-- All rows of np.where(mask, image, gray).astype(np.uint8): i is the row
index of the first row of the suffix. -/
def splashRows (mask : List (List (List Bool))) : Nat → List (List Pix) → List (List Pix)
  | _, [] => []
  | i, row :: rows => splashRow mask i 0 row :: splashRows mask (i + 1) rows

/-- color_splash from ears.py. gray is the rgb2gray luminance expanded back
to three channels and scaled by 255; if the instance axis is nonempty the
stack is collapsed by np.sum(mask, -1, keepdims=True) >= 1 and np.where
picks the original pixel on the collapsed mask and the gray pixel off it;
otherwise the output is the gray image, cast to uint8 either way. -/
def color_splash (image : List (List Pix)) (mask : List (List (List Bool))) :
    List (List Pix) :=
  if 0 < mask.length then
    splashRows mask 0 image
  else
    image.map (fun row => row.map grayPix)

/-- Grayscale-expanded image in the words of the spec: the luminance image
replicated across 3 channels, scaled to [0,255], each value rounded down to
an integer. Stated against lumQ, the exact rational luminance. -/
def grayExpandSpec (image : List (List Pix)) : List (List Pix) :=
  image.map (fun row => row.map (fun p => ⟨⌊lumQ p⌋₊, ⌊lumQ p⌋₊, ⌊lumQ p⌋₊⟩))

/-- One catalog entry, the dict built by add_image in load_ear: source tag,
id (filename stem), image path, decoded width and height, and the mask base
path stored under the mask key. -/
structure ImageInfo where
  source : String
  id : String
  path : String
  width : Nat
  height : Nat
  mask : String
deriving DecidableEq

instance : Inhabited ImageInfo := ⟨⟨"", "", "", 0, 0, ""⟩⟩

/-- The mutable state of an EarDataset instance: the registered classes
(source, class id, class name) and the image catalog, both append-only. -/
structure EarDataset where
  class_info : List (String × Nat × String)
  image_info : List ImageInfo
deriving DecidableEq

/-- Filesystem and image-decoding environment supplied to the adapter:
listdir is the top level of os.walk, decodeImage is skimage.io.imread on a
catalog image reduced to its (height, width) shape, glob is glob.glob, and
decodeMask is skimage.io.imread(...).astype(np.bool) on a mask file. -/
structure FS where
  listdir : String → List String
  decodeImage : String → Option (Nat × Nat)
  glob : String → List String
  decodeMask : String → List (List Bool)

/-- Errors of the build path: the failed subset assert (the InvalidSubset
of the spec) and an imread failure (the UnreadableImage of the spec). -/
inductive EarError where
  | invalidSubset
  | unreadableImage
deriving DecidableEq

/-- Modelled from the spec: add_class of the framework base class
(mrcnn.utils.Dataset, outside this repository), which registers a class
once, skipping a (source, class id) pair already present. -/
def add_class (self : EarDataset) (source : String) (class_id : Nat)
    (class_name : String) : EarDataset :=
  if self.class_info.any (fun c => c.1 == source && c.2.1 == class_id) then self
  else { self with class_info := self.class_info ++ [(source, class_id, class_name)] }

/-- Modelled from the spec: add_image of the framework base class
(mrcnn.utils.Dataset, outside this repository), which appends one record
to the image catalog. -/
def add_image (self : EarDataset) (source image_id path : String)
    (width height : Nat) (mask : String) : EarDataset :=
  { self with image_info := self.image_info ++
      [⟨source, image_id, path, width, height, mask⟩] }

/-- The per-filename loop body of load_ear, over the filenames of the image
directory: imread the image, read (height, width) from its shape, and
add_image a record with id the filename stem, the joined image path, and
the joined mask path; a failed imread aborts the whole build. -/
def addImages (fs : FS) (img_dir mask_dir : String) :
    EarDataset → List String → Except EarError EarDataset
  | self, [] => .ok self
  | self, filename :: rest =>
    match fs.decodeImage (pathJoin img_dir filename) with
    | none => .error .unreadableImage
    | some hw =>
      addImages fs img_dir mask_dir
        (add_image self "ear" (splitextStem filename) (pathJoin img_dir filename)
          hw.2 hw.1 (pathJoin mask_dir filename)) rest

/-- load_ear from ears.py: registers the single ear class, asserts the
subset name is train or test, resolves the image directory
datasetRoot/subset and the mask directory datasetRoot/subsetannot, lists
the image directory non-recursively, and adds one record per filename. -/
def load_ear (self : EarDataset) (dataset_dir subset : String) (fs : FS) :
    Except EarError EarDataset :=
  let self := add_class self "ear" 1 "ear"
  if subset == "train" || subset == "test" then
    let mask_dir := pathJoin dataset_dir (subset ++ "annot")
    let img_dir := pathJoin dataset_dir subset
    addImages fs img_dir mask_dir self (fs.listdir img_dir)
  else
    .error .invalidSubset

/-- Shape of a decoded mask grid as np.stack compares it: the row count
together with the length of every row. -/
def gridShape (g : List (List Bool)) : Nat × List Nat :=
  (g.length, g.map List.length)

/-- Modelled from the spec: load_mask of the framework base class
(mrcnn.utils.Dataset, outside this repository), the delegate for records of
another source; it returns an empty mask stack with empty class ids. -/
def super_load_mask : Option (List (List (List Bool)) × List Int) :=
  some ([], [])

/-- load_mask from ears.py. Non-ear records delegate to the base class.
Otherwise: mask_root is the mask path without extension, parent its
directory, files the glob matches of mask_root_?.* ; every file is read as
a boolean grid and the list is passed to np.stack, which raises on an empty
list and on grids of unequal shapes (embedded as the error value) and
otherwise yields the stack together with np.ones class ids, one 1 per
instance. The record, and the catalog, are only read, never written: the
dataset state is returned unchanged in every branch. -/
def load_mask (self : EarDataset) (fs : FS) (image_id : Nat) :
    Option (List (List (List Bool)) × List Int) × EarDataset :=
  let info := nthD default self.image_info image_id
  if info.source ≠ "ear" then
    (super_load_mask, self)
  else
    let mask_root := splitextStem info.mask
    let parent := dirname info.mask
    let files := fs.glob (mask_root ++ "_?.*")
    match files.map (fun f => fs.decodeMask (pathJoin parent f)) with
    | [] => (none, self)
    | m :: rest =>
      if rest.all (fun g => gridShape g == gridShape m) then
        (some (m :: rest, List.replicate (m :: rest).length 1), self)
      else
        (none, self)

/-- Modelled from the spec: image_reference of the framework base class
(mrcnn.utils.Dataset, outside this repository), which returns an empty
string for every image id. -/
def super_image_reference (self : EarDataset) (image_id : Nat) : String :=
  ""

/-- image_reference from ears.py: returns the stored path for an ear
record; for any other source it calls the base-class method but does not
return its value, so the Python method returns None, embedded as none. -/
def image_reference (self : EarDataset) (image_id : Nat) : Option String :=
  let info := nthD default self.image_info image_id
  if info.source == "ear" then some info.path
  else none

/-- The 2 by 2 all-red image of the C4 scenario. -/
def redImage : List (List Pix) :=
  [[⟨255, 0, 0⟩, ⟨255, 0, 0⟩], [⟨255, 0, 0⟩, ⟨255, 0, 0⟩]]

/-- The single instance mask of the C4 scenario, covering the top row. -/
def topRowMask : List (List Bool) :=
  [[true, true], [false, false]]

/-- Claim C4, counterexample: on the 2 by 2 all-red image with the top-row
mask, the bottom-row output pixel is (54,54,54), not approximately
(76,76,76): it differs from 76 by 22 per channel, far beyond rounding. -/
theorem C4_bottom_row_not_76 :
    nthD ⟨0, 0, 0⟩ (nthD [] (color_splash redImage [topRowMask]) 1) 0 = ⟨54, 54, 54⟩ ∧
    nthD ⟨0, 0, 0⟩ (nthD [] (color_splash redImage [topRowMask]) 1) 0 ≠ ⟨76, 76, 76⟩ ∧
    (nthD ⟨0, 0, 0⟩ (nthD [] (color_splash redImage [topRowMask]) 1) 0).r + 21 < 76 := by
  constructor
  · rfl
  · constructor
    · decide
    · decide

/-- Claim C4, amended: on the 2 by 2 all-red image with the top-row mask,
the top row stays (255,0,0) and the bottom row becomes (54,54,54) — the
ITU-R 709 luminance used by skimage (weights 0.2125, 0.7154, 0.0721) of
pure red, scaled to [0,255] and truncated to an integer — rather than the
value 76 that the 0.299/0.587/0.114 weights would give. -/
theorem C4_splash_red_top_mask :
    color_splash redImage [topRowMask] =
      [[⟨255, 0, 0⟩, ⟨255, 0, 0⟩], [⟨54, 54, 54⟩, ⟨54, 54, 54⟩]] := by
  rfl

/-- Permuting the instance axis leaves the pixelwise sum unchanged. -/
theorem maskSum_perm {m1 m2 : List (List (List Bool))} (h : m1.Perm m2)
    (i j : Nat) : maskSum m1 i j = maskSum m2 i j :=
  List.Perm.sum_eq (h.map _)

/-- Rows of the splash depend on the mask stack only through maskSum. -/
theorem splashRow_congr {m1 m2 : List (List (List Bool))}
    (h : ∀ i j, maskSum m1 i j = maskSum m2 i j) (i : Nat) :
    ∀ (row : List Pix) (j : Nat), splashRow m1 i j row = splashRow m2 i j row := by
  intro row
  induction row with
  | nil => intro j; rfl
  | cons p ps ih =>
    intro j
    simp only [splashRow, h i j, ih (j + 1)]

/-- The whole splash depends on the mask stack only through maskSum. -/
theorem splashRows_congr {m1 m2 : List (List (List Bool))}
    (h : ∀ i j, maskSum m1 i j = maskSum m2 i j) :
    ∀ (rows : List (List Pix)) (i : Nat), splashRows m1 i rows = splashRows m2 i rows := by
  intro rows
  induction rows with
  | nil => intro i; rfl
  | cons row rest ih =>
    intro i
    simp only [splashRows, splashRow_congr h i row 0, ih (i + 1)]

/-- The collapse np.sum(mask, -1) >= 1 agrees with the logical OR over the
instance axis at every cell. -/
theorem maskSum_pos_iff_any (mask : List (List (List Bool))) (i j : Nat) :
    1 ≤ maskSum mask i j ↔ mask.any (fun m => maskAt m i j) = true := by
  induction mask with
  | nil => simp [maskSum]
  | cons m ms ih =>
    have hstep : maskSum (m :: ms) i j =
        (if maskAt m i j then 1 else 0) + maskSum ms i j := by
      simp [maskSum]
    cases h : maskAt m i j with
    | true => simp [hstep, h]
    | false =>
      rw [hstep, h]
      simpa [h] using ih

/-- Claim C5: for a nonempty mask stack the output of color_splash depends
only on the pixelwise OR of the instances — the collapse by sum >= 1 equals
the logical OR over instances, and permuting the instance order produces an
identical output. -/
theorem C5_splash_perm_invariant (image : List (List Pix))
    (mask1 mask2 : List (List (List Bool)))
    (hperm : mask1.Perm mask2) (hne : mask1 ≠ []) :
    color_splash image mask1 = color_splash image mask2 ∧
    ∀ i j, (1 ≤ maskSum mask1 i j ↔ mask1.any (fun m => maskAt m i j) = true) := by
  refine ⟨?_, fun i j => maskSum_pos_iff_any mask1 i j⟩
  unfold color_splash
  rw [hperm.length_eq]
  split
  · exact splashRows_congr (fun i j => maskSum_perm hperm i j) image 0
  · rfl

/-- Witness for C5 at a concrete one-pixel image and a two-instance stack
swapped by the permutation. -/
theorem C5_splash_perm_invariant_witness :
    color_splash [[⟨1, 2, 3⟩]] [[[true]], [[false]]] =
      color_splash [[⟨1, 2, 3⟩]] [[[false]], [[true]]] ∧
    ∀ i j, (1 ≤ maskSum [[[true]], [[false]]] i j ↔
      ([[[true]], [[false]]] : List (List (List Bool))).any
        (fun m => maskAt m i j) = true) :=
  C5_splash_perm_invariant [[⟨1, 2, 3⟩]] [[[true]], [[false]]] [[[false]], [[true]]]
    (List.Perm.swap [[false]] [[true]] []) (by decide)

/-- Bound on the gray level: channels at most 255 give luminance at most
255, since the three weights sum to exactly 1. -/
theorem grayLevel_le (p : Pix) (hr : p.r ≤ 255) (hg : p.g ≤ 255) (hb : p.b ≤ 255) :
    grayLevel p ≤ 255 := by
  unfold grayLevel
  omega

/-- The integer gray level of the source equals the floor of the exact
rational luminance of the spec. -/
theorem grayLevel_eq_floor (p : Pix) : grayLevel p = ⌊lumQ p⌋₊ := by
  unfold grayLevel lumQ
  rw [Nat.floor_div_nat, Nat.floor_natCast]

/-- Map congruence over the pixels of an image, proved by induction so the
development does not lean on a particular library lemma name. -/
theorem image_map_congr {f g : Pix → Pix} :
    ∀ image : List (List Pix), (∀ row ∈ image, ∀ p ∈ row, f p = g p) →
    image.map (fun row => row.map f) = image.map (fun row => row.map g) := by
  intro image
  induction image with
  | nil => intro _; rfl
  | cons row rest ih =>
    intro h
    simp only [List.map_cons]
    refine congrArg₂ _ ?_ (ih fun r hr p hp => h r (by simp [hr]) p hp)
    exact List.map_congr_left (fun p hp => h row (by simp) p hp)

/-- Claim C6: with an empty mask stack, color_splash returns exactly the
grayscale-expanded image of the spec — the floor of the scaled luminance
replicated over the three channels — for any image with channels in
[0,255]. -/
theorem C6_empty_mask_gray (image : List (List Pix))
    (hb : ∀ row ∈ image, ∀ p ∈ row, p.r ≤ 255 ∧ p.g ≤ 255 ∧ p.b ≤ 255) :
    color_splash image [] = grayExpandSpec image := by
  unfold color_splash grayExpandSpec
  rw [if_neg (by simp)]
  apply image_map_congr
  intro row hrow p hp
  obtain ⟨h1, h2, h3⟩ := hb row hrow p hp
  have hle := grayLevel_le p h1 h2 h3
  unfold grayPix
  rw [Nat.mod_eq_of_lt (by omega), grayLevel_eq_floor]

/-- Witness for C6 at a concrete two-pixel image. -/
theorem C6_empty_mask_gray_witness :
    color_splash [[⟨10, 20, 30⟩, ⟨255, 255, 255⟩]] [] =
      grayExpandSpec [[⟨10, 20, 30⟩, ⟨255, 255, 255⟩]] :=
  C6_empty_mask_gray [[⟨10, 20, 30⟩, ⟨255, 255, 255⟩]] (by decide)

/-- The all-true instance mask of the same shape as the image. -/
def allTrueMask (image : List (List Pix)) : List (List Bool) :=
  image.map (fun row => row.map (fun _ => true))

/-- In-range reads of a constant-true row are true. -/
theorem nthD_map_true : ∀ (row : List Pix) (j : Nat), j < row.length →
    nthD false (row.map (fun _ => true)) j = true := by
  intro row
  induction row with
  | nil => intro j h; exact absurd h (by simp)
  | cons p ps ih =>
    intro j h
    cases j with
    | zero => rfl
    | succ n => exact ih n (by simpa using h)

/-- In-range reads of the all-true mask are true. -/
theorem maskAt_allTrue : ∀ (image : List (List Pix)) (i j : Nat),
    i < image.length → j < (nthD [] image i).length →
    maskAt (allTrueMask image) i j = true := by
  intro image
  induction image with
  | nil => intro i j h _; exact absurd h (by simp)
  | cons row rest ih =>
    intro i j hi hj
    cases i with
    | zero => exact nthD_map_true row j hj
    | succ n => exact ih n j (by simpa using hi) hj

/-- The pixelwise sum of a one-instance stack at a cell. -/
theorem maskSum_single (m : List (List Bool)) (i j : Nat) :
    maskSum [m] i j = if maskAt m i j then 1 else 0 := by
  simp [maskSum]

/-- A row whose cells are all covered by the collapsed mask, with channels
in [0,255], passes through the splash unchanged. -/
theorem splashRow_id (mask : List (List (List Bool))) (i : Nat) :
    ∀ (row : List Pix) (j : Nat),
    (∀ dj, dj < row.length → 1 ≤ maskSum mask i (j + dj)) →
    (∀ p ∈ row, p.r ≤ 255 ∧ p.g ≤ 255 ∧ p.b ≤ 255) →
    splashRow mask i j row = row := by
  intro row
  induction row with
  | nil => intro j _ _; rfl
  | cons p ps ih =>
    intro j hm hb
    have h0 : 1 ≤ maskSum mask i j := by simpa using hm 0 (by simp)
    have hp := hb p (by simp)
    have hcast : castPix p = p := by
      obtain ⟨h1, h2, h3⟩ := hp
      cases p with
      | mk r g b =>
        simp only at h1 h2 h3
        simp only [castPix, Pix.mk.injEq]
        omega
    unfold splashRow
    rw [if_pos h0, hcast]
    refine congrArg _ ?_
    refine ih (j + 1) (fun dj hdj => ?_) (fun q hq => hb q (by simp [hq]))
    have := hm (dj + 1) (by simpa using Nat.succ_lt_succ hdj)
    rw [show j + 1 + dj = j + (dj + 1) by omega]
    exact this

/-- An image whose cells are all covered by the collapsed mask, with
channels in [0,255], passes through the splash unchanged. -/
theorem splashRows_id (mask : List (List (List Bool))) :
    ∀ (rows : List (List Pix)) (i : Nat),
    (∀ di, di < rows.length → ∀ j, j < (nthD [] rows di).length →
      1 ≤ maskSum mask (i + di) j) →
    (∀ row ∈ rows, ∀ p ∈ row, p.r ≤ 255 ∧ p.g ≤ 255 ∧ p.b ≤ 255) →
    splashRows mask i rows = rows := by
  intro rows
  induction rows with
  | nil => intro i _ _; rfl
  | cons row rest ih =>
    intro i hm hb
    unfold splashRows
    refine congrArg₂ _ ?_ ?_
    · refine splashRow_id mask i row 0 (fun dj hdj => ?_)
        (fun p hp => hb row (by simp) p hp)
      simpa using hm 0 (by simp) dj hdj
    · refine ih (i + 1) (fun di hdi j hj => ?_)
        (fun r hr p hp => hb r (by simp [hr]) p hp)
      have := hm (di + 1) (by simpa using Nat.succ_lt_succ hdi) j hj
      rw [show i + 1 + di = i + (di + 1) by omega]
      exact this

/-- Claim C7: with a single all-true instance mask, color_splash returns
the image unchanged, for any image with integer channels in [0,255]. -/
theorem C7_all_true_mask_identity (image : List (List Pix))
    (hb : ∀ row ∈ image, ∀ p ∈ row, p.r ≤ 255 ∧ p.g ≤ 255 ∧ p.b ≤ 255) :
    color_splash image [allTrueMask image] = image := by
  unfold color_splash
  rw [if_pos (by simp)]
  refine splashRows_id [allTrueMask image] image 0 (fun di hdi j hj => ?_) hb
  rw [maskSum_single, maskAt_allTrue image (0 + di) j (by simpa using hdi)
    (by simpa using hj)]
  exact le_refl 1

/-- Witness for C7 at a concrete two-by-two image. -/
theorem C7_all_true_mask_identity_witness :
    color_splash [[⟨255, 0, 0⟩, ⟨1, 2, 3⟩], [⟨0, 0, 0⟩, ⟨9, 9, 9⟩]]
      [allTrueMask [[⟨255, 0, 0⟩, ⟨1, 2, 3⟩], [⟨0, 0, 0⟩, ⟨9, 9, 9⟩]]] =
      [[⟨255, 0, 0⟩, ⟨1, 2, 3⟩], [⟨0, 0, 0⟩, ⟨9, 9, 9⟩]] :=
  C7_all_true_mask_identity [[⟨255, 0, 0⟩, ⟨1, 2, 3⟩], [⟨0, 0, 0⟩, ⟨9, 9, 9⟩]]
    (by decide)

/-- An ear record of declared size 2 by 2, as load_ear would build it. -/
def earInfo : ImageInfo :=
  ⟨"ear", "img1", "root/train/img1.png", 2, 2, "root/trainannot/img1.png"⟩

/-- A catalog holding the one ear record. -/
def dsOne : EarDataset := ⟨[("ear", 1, "ear")], [earInfo]⟩

/-- The empty catalog a fresh EarDataset instance starts from, before the
base-class constructor registers anything the claims mention. -/
def dsEmpty : EarDataset := ⟨[], []⟩

/-- A 2 by 2 decoded mask grid. -/
def grid2 : List (List Bool) := [[true, false], [false, true]]

/-- A 3 by 3 decoded mask grid, disagreeing with the declared 2 by 2. -/
def grid3 : List (List Bool) :=
  [[true, true, true], [true, true, true], [true, true, true]]

/-- A filesystem with no files at all. -/
def fsEmpty : FS := ⟨fun _ => [], fun _ => none, fun _ => [], fun _ => []⟩

/-- A filesystem whose one matching mask file decodes to the 3 by 3 grid,
against the declared 2 by 2 record. -/
def fsWrongShape : FS :=
  ⟨fun _ => [], fun _ => none, fun _ => ["img1_0.png"], fun _ => grid3⟩

/-- A filesystem with two matching mask files whose decoded grids disagree
in shape with each other. -/
def fsMixedShapes : FS :=
  ⟨fun _ => [], fun _ => none, fun _ => ["img1_0.png", "img1_1.png"],
    fun s => if s == "root/trainannot/img1_0.png" then grid2 else grid3⟩

/-- A filesystem with two matching mask files of one common shape. -/
def fsTwoMasks : FS :=
  ⟨fun _ => [], fun _ => none, fun _ => ["img1_0.png", "img1_1.png"], fun _ => grid2⟩

/-- A filesystem whose image directory holds two filenames with the same
stem and different extensions. -/
def fsStems : FS :=
  ⟨fun _ => ["a.png", "a.jpg"], fun _ => some (2, 2), fun _ => [], fun _ => []⟩

/-- A filesystem whose image directory holds two distinct-stem filenames,
every image decoding to height 3, width 4. -/
def fsGoodDir : FS :=
  ⟨fun _ => ["a.png", "b.png"], fun _ => some (3, 4), fun _ => [], fun _ => []⟩

/-- Constant dimension map matching fsGoodDir. -/
def dims34 : String → Nat × Nat := fun _ => (3, 4)

/-- Claim C1, counterexample: on a record with zero matching mask files,
load_mask does not return the empty MaskStack — np.stack of the empty list
raises, embedded as the error value. -/
theorem C1_zero_match_raises :
    (load_mask dsOne fsEmpty 0).1 = none ∧
    (load_mask dsOne fsEmpty 0).1 ≠ some ([], []) ∧
    fsEmpty.glob (splitextStem (nthD default dsOne.image_info 0).mask ++ "_?.*") = [] := by
  refine ⟨by decide, by decide, by decide⟩

/-- Claim C1, amended: for every ear record with zero matching mask files,
load_mask fails — np.stack raises on the empty sequence — rather than
returning an empty MaskStack. -/
theorem C1_zero_match_fails (self : EarDataset) (fs : FS) (i : Nat)
    (hsrc : (nthD default self.image_info i).source = "ear")
    (hglob : fs.glob (splitextStem (nthD default self.image_info i).mask ++ "_?.*") = []) :
    (load_mask self fs i).1 = none := by
  simp [load_mask, hsrc, hglob]

/-- Witness for C1 at the concrete no-mask filesystem. -/
theorem C1_zero_match_fails_witness :
    (nthD default dsOne.image_info 0).source = "ear" ∧
    fsEmpty.glob (splitextStem (nthD default dsOne.image_info 0).mask ++ "_?.*") = [] ∧
    (load_mask dsOne fsEmpty 0).1 = none :=
  ⟨by decide, by decide, C1_zero_match_fails dsOne fsEmpty 0 (by decide) (by decide)⟩

/-- Claim C2, counterexample: the record declares 2 by 2 while the one
matching mask file decodes to 3 by 3, yet load_mask succeeds — no shape
comparison against the record is ever made, so no MaskShapeMismatch
failure occurs. -/
theorem C2_mismatch_not_detected :
    (load_mask dsOne fsWrongShape 0).1 ≠ none ∧
    (fsWrongShape.decodeMask
      (pathJoin (dirname (nthD default dsOne.image_info 0).mask) "img1_0.png")).length ≠
      (nthD default dsOne.image_info 0).height := by
  decide

/-- Claim C2, amended: load_mask never compares the decoded masks with the
declared dimensions of the record. It leaves the catalog unchanged in every
case, and with at least one matching file it succeeds exactly when the
decoded masks agree in shape with one another (the np.stack condition),
regardless of the recorded width and height. -/
theorem C2_no_shape_check (self : EarDataset) (fs : FS) (i : Nat) :
    (load_mask self fs i).2 = self ∧
    ((nthD default self.image_info i).source = "ear" →
      ∀ (m : List (List Bool)) (ms : List (List (List Bool))),
        (fs.glob (splitextStem (nthD default self.image_info i).mask ++ "_?.*")).map
          (fun f => fs.decodeMask
            (pathJoin (dirname (nthD default self.image_info i).mask) f)) = m :: ms →
        ((load_mask self fs i).1 ≠ none ↔
          ms.all (fun g => gridShape g == gridShape m) = true)) := by
  constructor
  · simp only [load_mask]
    split
    · rfl
    · split
      · rfl
      · split <;> rfl
  · intro hsrc m ms hmap
    cases hall : ms.all (fun g => gridShape g == gridShape m) with
    | true => simp [load_mask, hsrc, hmap, hall]
    | false => simp [load_mask, hsrc, hmap, hall]

/-- Witness for C2 at the concrete wrong-shape filesystem. -/
theorem C2_no_shape_check_witness :
    (load_mask dsOne fsWrongShape 0).2 = dsOne ∧
    ((load_mask dsOne fsWrongShape 0).1 ≠ none ↔
      ([] : List (List (List Bool))).all (fun g => gridShape g == gridShape grid3) = true) :=
  ⟨(C2_no_shape_check dsOne fsWrongShape 0).1,
   (C2_no_shape_check dsOne fsWrongShape 0).2 (by decide) grid3 [] (by decide)⟩

/-- Claim C3: for every subset name other than train and test, load_ear
fails with InvalidSubset, the failed membership assert. -/
theorem C3_invalid_subset (self : EarDataset) (root subset : String) (fs : FS)
    (h1 : subset ≠ "train") (h2 : subset ≠ "test") :
    load_ear self root subset fs = .error .invalidSubset := by
  simp only [load_ear]
  rw [if_neg (by simp [h1, h2])]

/-- Witness for C3 at the subset name bogus of the scenario. -/
theorem C3_invalid_subset_witness :
    ("bogus" : String) ≠ "train" ∧ ("bogus" : String) ≠ "test" ∧
    load_ear dsEmpty "root" "bogus" fsEmpty = .error .invalidSubset :=
  ⟨by decide, by decide,
   C3_invalid_subset dsEmpty "root" "bogus" fsEmpty (by decide) (by decide)⟩

/-- Adding a class never touches the image catalog. -/
theorem add_class_image_info (self : EarDataset) (source : String) (cid : Nat)
    (cname : String) :
    (add_class self source cid cname).image_info = self.image_info := by
  unfold add_class
  split <;> rfl

/-- The record load_ear builds for one filename: id is the stem, the image
path and the mask base path are the joined paths using that filename, and
width and height come from the decoded image, whose shape is (height,
width). -/
def earRecord (img_dir mask_dir : String) (dims : String → Nat × Nat)
    (f : String) : ImageInfo :=
  ⟨"ear", splitextStem f, pathJoin img_dir f, (dims f).2, (dims f).1,
    pathJoin mask_dir f⟩

/-- The loop of load_ear appends, in scan order, one record per filename
whose image decodes, each carrying the stem as id, the joined image path,
the joined mask path and the decoded dimensions. -/
theorem addImages_eq (fs : FS) (img_dir mask_dir : String) (dims : String → Nat × Nat) :
    ∀ (files : List String) (self : EarDataset),
    (∀ f ∈ files, fs.decodeImage (pathJoin img_dir f) = some (dims f)) →
    addImages fs img_dir mask_dir self files = .ok
      { self with image_info := self.image_info ++ files.map (earRecord img_dir mask_dir dims) } := by
  intro files
  induction files with
  | nil =>
    intro self _
    simp [addImages]
  | cons f rest ih =>
    intro self h
    have hf := h f (by simp)
    have hstep : addImages fs img_dir mask_dir self (f :: rest) =
        addImages fs img_dir mask_dir
          (add_image self "ear" (splitextStem f) (pathJoin img_dir f)
            (dims f).2 (dims f).1 (pathJoin mask_dir f)) rest := by
      simp [addImages, hf]
    rw [hstep, ih _ (fun g hg => h g (by simp [hg]))]
    simp [add_image, earRecord, List.append_assoc]

/-- Claim C8, counterexample: a directory with the two files a.png and
a.jpg (correct mask pairing is irrelevant here: no mask is consulted at
build time) yields two records both with id a — ids equal the filename
stems but they are not unique. -/
theorem C8_stem_collision :
    (load_ear dsEmpty "root" "train" fsStems).toOption.map
      (fun d => d.image_info.map (fun r => r.id)) = some ["a", "a"] ∧
    ¬ (["a", "a"] : List String).Nodup := by
  decide

/-- Claim C8, amended: for a directory with N image files that all decode,
load_ear succeeds and appends exactly N records in scan order, each with id
the filename stem, imagePath and maskBasePath the joined paths using that
filename, and width and height the decoded dimensions; starting from an
empty catalog, the ids are the filename stems and they are unique provided
the stems are pairwise distinct (two filenames differing only in extension
do collide). -/
theorem C8_build_catalog (self : EarDataset) (root subset : String) (fs : FS)
    (dims : String → Nat × Nat)
    (hs : subset = "train" ∨ subset = "test")
    (hdec : ∀ f ∈ fs.listdir (pathJoin root subset),
      fs.decodeImage (pathJoin (pathJoin root subset) f) = some (dims f)) :
    ∃ ds, load_ear self root subset fs = .ok ds ∧
      ds.image_info = self.image_info ++ (fs.listdir (pathJoin root subset)).map
        (earRecord (pathJoin root subset) (pathJoin root (subset ++ "annot")) dims) ∧
      ds.image_info.length =
        self.image_info.length + (fs.listdir (pathJoin root subset)).length ∧
      (self.image_info = [] → ds.image_info.map (fun r => r.id) =
        (fs.listdir (pathJoin root subset)).map splitextStem) ∧
      (self.image_info = [] →
        ((fs.listdir (pathJoin root subset)).map splitextStem).Nodup →
        (ds.image_info.map (fun r => r.id)).Nodup) := by
  have hopen : load_ear self root subset fs =
      addImages fs (pathJoin root subset) (pathJoin root (subset ++ "annot"))
        (add_class self "ear" 1 "ear") (fs.listdir (pathJoin root subset)) := by
    simp only [load_ear]
    rw [if_pos (by rcases hs with h | h <;> simp [h])]
  rw [hopen, addImages_eq fs _ _ dims _ _ hdec]
  refine ⟨_, rfl, ?_, ?_, ?_, ?_⟩
  · simp [add_class_image_info]
  · simp [add_class_image_info]
  · intro h0
    simp [add_class_image_info, h0, List.map_map, Function.comp, earRecord]
  · intro h0 hnd
    simpa [add_class_image_info, h0, List.map_map, Function.comp, earRecord] using hnd

/-- Witness for C8 at a concrete two-file directory with distinct stems. -/
theorem C8_build_catalog_witness :
    ∃ ds, load_ear dsEmpty "root" "train" fsGoodDir = .ok ds ∧
      ds.image_info = dsEmpty.image_info ++
        (fsGoodDir.listdir (pathJoin "root" "train")).map
          (earRecord (pathJoin "root" "train") (pathJoin "root" ("train" ++ "annot")) dims34) ∧
      ds.image_info.length = dsEmpty.image_info.length +
        (fsGoodDir.listdir (pathJoin "root" "train")).length ∧
      (dsEmpty.image_info = [] → ds.image_info.map (fun r => r.id) =
        (fsGoodDir.listdir (pathJoin "root" "train")).map splitextStem) ∧
      (dsEmpty.image_info = [] →
        ((fsGoodDir.listdir (pathJoin "root" "train")).map splitextStem).Nodup →
        (ds.image_info.map (fun r => r.id)).Nodup) :=
  C8_build_catalog dsEmpty "root" "train" fsGoodDir dims34 (Or.inl rfl) (by decide)

/-- Claim C9, counterexample: a record with two matching mask files whose
decoded grids disagree in shape makes load_mask fail at np.stack, so it
does not return two masks with two class ids as the claim, quantified over
every record with k matching files, requires. -/
theorem C9_ragged_shapes_fail :
    (load_mask dsOne fsMixedShapes 0).1 = none ∧
    (fsMixedShapes.glob (splitextStem (nthD default dsOne.image_info 0).mask ++ "_?.*")).length = 2 := by
  decide

/-- Claim C9, amended: for every ear record with k at least 1 matching mask
files whose decoded grids share one shape, load_mask returns exactly k
masks and k class ids, every class id equal to 1. -/
theorem C9_k_masks_k_ones (self : EarDataset) (fs : FS) (i : Nat)
    (m : List (List Bool)) (ms : List (List (List Bool)))
    (hsrc : (nthD default self.image_info i).source = "ear")
    (hmap : (fs.glob (splitextStem (nthD default self.image_info i).mask ++ "_?.*")).map
      (fun f => fs.decodeMask
        (pathJoin (dirname (nthD default self.image_info i).mask) f)) = m :: ms)
    (hall : ms.all (fun g => gridShape g == gridShape m) = true) :
    (load_mask self fs i).1 = some (m :: ms, List.replicate (m :: ms).length 1) ∧
    (m :: ms).length =
      (fs.glob (splitextStem (nthD default self.image_info i).mask ++ "_?.*")).length ∧
    (List.replicate (m :: ms).length (1 : Int)).length = (m :: ms).length ∧
    ∀ c ∈ List.replicate (m :: ms).length (1 : Int), c = 1 := by
  refine ⟨?_, ?_, by simp, fun c hc => List.eq_of_mem_replicate hc⟩
  · simp [load_mask, hsrc, hmap, hall]
  · simpa using (congrArg List.length hmap).symm

/-- Witness for C9 at the concrete two-mask filesystem of one shape. -/
theorem C9_k_masks_k_ones_witness :
    (load_mask dsOne fsTwoMasks 0).1 =
      some (grid2 :: [grid2], List.replicate (grid2 :: [grid2]).length 1) ∧
    (grid2 :: [grid2]).length =
      (fsTwoMasks.glob (splitextStem (nthD default dsOne.image_info 0).mask ++ "_?.*")).length ∧
    (List.replicate (grid2 :: [grid2]).length (1 : Int)).length = (grid2 :: [grid2]).length ∧
    ∀ c ∈ List.replicate (grid2 :: [grid2]).length (1 : Int), c = 1 :=
  C9_k_masks_k_ones dsOne fsTwoMasks 0 grid2 [grid2] (by decide) (by decide) (by decide)

/-- Claim C10: for every image id whose record source is not ear,
image_reference returns none — the base-class result is computed in the
source but never returned — and in particular not the base-class value. -/
theorem C10_non_ear_reference_none (self : EarDataset) (i : Nat)
    (h : (nthD default self.image_info i).source ≠ "ear") :
    image_reference self i = none ∧
    image_reference self i ≠ some (super_image_reference self i) := by
  have hnone : image_reference self i = none := by
    simp [image_reference, h]
  exact ⟨hnone, by simp [hnone]⟩

/-- A record owned by another source. -/
def cocoInfo : ImageInfo := ⟨"coco", "c1", "root/c1.png", 1, 1, "root/c1m.png"⟩

/-- A catalog holding the one foreign record. -/
def dsCoco : EarDataset := ⟨[], [cocoInfo]⟩

/-- Witness for C10 at the concrete foreign record. -/
theorem C10_non_ear_reference_none_witness :
    image_reference dsCoco 0 = none ∧
    image_reference dsCoco 0 ≠ some (super_image_reference dsCoco 0) :=
  C10_non_ear_reference_none dsCoco 0 (by decide)

end Ears
